import Mathlib

/-! CPP-Notepad: the menu handlers of the `Notepad` main window.

A shallow embedding of the slots of `class Notepad` (NOTEPAD.CPP) and theorems about them.

The handlers are sequential calls into the GUI toolkit.  What the toolkit does is not defined in
the repository, so it enters the embedding in three ways:

* the text widget (`ui->textEdit`) is a parameter, `Toolkit`: an arbitrary state type with the
  operations the handlers call on it;
* the answers of the modal dialogs (the chosen file name, the print dialog's result code) are
  arguments of the handlers;
* the files are a `FileSystem`: which paths hold a file, which files open for reading, which
  paths open for writing, and what a text stream reads from each path.

Everything the user can observe is a field of the state: the stored path, the window title, the
widget, the files, the dialogs that were run, the warnings that were shown and the documents that
were sent to the printer.
-/

namespace NotepadApp

/-! ## The toolkit -/

/-- The text widget of the toolkit (`QTextEdit`), as far as the handlers use it.  `Widget` is all
the state the widget's operations read or write (document, selection, undo stack, clipboard). -/
structure Toolkit where
  /-- State of the text widget. -/
  Widget : Type
  /-- The call `textEdit->setText(text)`. -/
  setText : String → Widget → Widget
  /-- The call `textEdit->toPlainText()`. -/
  toPlainText : Widget → String
  /-- The call `textEdit->copy()`. -/
  copy : Widget → Widget
  /-- The call `textEdit->cut()`. -/
  cut : Widget → Widget
  /-- The call `textEdit->paste()`. -/
  paste : Widget → Widget
  /-- The call `textEdit->undo()`. -/
  undo : Widget → Widget
  /-- The call `textEdit->redo()`. -/
  redo : Widget → Widget

/-- The files as `QFile` and `QTextStream` show them to the handlers. -/
structure FileSystem where
  /-- Whether there is a file at the path. -/
  present : String → Bool
  /-- Whether the file at the path, once there is one, may be opened for reading. -/
  mayRead : String → Bool
  /-- Whether `QFile(path).open(QFile::WriteOnly | QFile::Text)` succeeds. -/
  writable : String → Bool
  /-- What `QTextStream::readAll` returns for the file at the path. -/
  content : String → String
  /-- What `QFile::errorString()` returns after a failed `open` of the path. -/
  errorString : String → String

/-- Whether `QFile(path).open(QIODevice::ReadOnly | QFile::Text)` succeeds: there is a file at the
path and it may be read. -/
def FileSystem.readable (fs : FileSystem) (path : String) : Bool :=
  fs.present path && fs.mayRead path

/-- Opening `path` write-only creates the file when there is none and truncates it otherwise;
`out << text` followed by `close` leaves the file holding `text`.  No other file changes. -/
def FileSystem.write (fs : FileSystem) (path text : String) : FileSystem :=
  { fs with present := fun q => if q = path then true else fs.present q,
            content := fun q => if q = path then text else fs.content q }

/-- A modal dialog that a handler runs. -/
inductive Dialog where
  | getOpenFileName (caption : String)
  | getSaveFileName (caption : String)
  | printDialog (printerName : String)
  deriving DecidableEq

/-- A call `QMessageBox::warning(this, title, text)`. -/
structure Warning where
  title : String
  text : String
  deriving DecidableEq

/-- The result code of `QDialog::exec`. -/
inductive DialogCode where
  | Rejected
  | Accepted
  deriving DecidableEq

/-! ## The window -/

/-- The `Notepad` window together with what it acts on. -/
structure Notepad (tk : Toolkit) where
  /-- The member `QString currentFile`. -/
  currentFile : String
  /-- The title of the main window (`setWindowTitle`). -/
  windowTitle : String
  /-- The widget `ui->textEdit`. -/
  textEdit : tk.Widget
  /-- The files. -/
  fs : FileSystem
  /-- The file and print dialogs run so far, oldest first. -/
  dialogs : List Dialog
  /-- The warning boxes shown so far, oldest first. -/
  warnings : List Warning
  /-- The widget states sent to the printer so far, oldest first. -/
  printed : List tk.Widget

variable {tk : Toolkit}

/-- The window after construction: `currentFile` is initialised to `""`; the title and the widget
are what `setupUi` (generated from the .ui file) makes them. -/
def Notepad.init (tk : Toolkit) (title : String) (textEdit : tk.Widget) (fs : FileSystem) :
    Notepad tk :=
  { currentFile := "", windowTitle := title, textEdit := textEdit, fs := fs,
    dialogs := [], warnings := [], printed := [] }

/-- The slot `Notepad::on_actionNew_triggered`. -/
def Notepad.on_actionNew_triggered (s : Notepad tk) : Notepad tk :=
  -- currentFile.clear();
  let s := { s with currentFile := "" }
  -- ui->textEdit->setText(QString());
  { s with textEdit := tk.setText "" s.textEdit }

/-- The slot `Notepad::on_actionOpen_triggered`; `fileName` is what the open dialog returns. -/
def Notepad.on_actionOpen_triggered (fileName : String) (s : Notepad tk) : Notepad tk :=
  -- QString fileName = QFileDialog::getOpenFileName(this, "Open the file");
  let s := { s with dialogs := s.dialogs ++ [Dialog.getOpenFileName "Open the file"] }
  -- currentFile = fileName;
  let s := { s with currentFile := fileName }
  -- if (!file.open(QIODevice::ReadOnly | QFile::Text)) { warning; return; }
  if !s.fs.readable fileName then
    { s with warnings := s.warnings ++
        [{ title := "Warning", text := "Cannot open file: " ++ s.fs.errorString fileName }] }
  else
    -- setWindowTitle(fileName);
    let s := { s with windowTitle := fileName }
    -- QString text = in.readAll();
    let text := s.fs.content fileName
    -- ui->textEdit->setText(text);
    { s with textEdit := tk.setText text s.textEdit }

/-- The slot `Notepad::on_actionSave_as_triggered`; `fileName` is what the save dialog returns. -/
def Notepad.on_actionSave_as_triggered (fileName : String) (s : Notepad tk) : Notepad tk :=
  -- QString fileName = QFileDialog::getSaveFileName(this, "Save as");
  let s := { s with dialogs := s.dialogs ++ [Dialog.getSaveFileName "Save as"] }
  -- if (!file.open(QFile::WriteOnly | QFile::Text)) { warning; return; }
  if !s.fs.writable fileName then
    { s with warnings := s.warnings ++
        [{ title := "Warning", text := "Cannot save file: " ++ s.fs.errorString fileName }] }
  else
    -- currentFile = fileName;
    let s := { s with currentFile := fileName }
    -- setWindowTitle(fileName);
    let s := { s with windowTitle := fileName }
    -- QString text = ui->textEdit->toPlainText();
    let text := tk.toPlainText s.textEdit
    -- out << text; file.close();
    { s with fs := s.fs.write fileName text }

/-- The slot `Notepad::on_actionSave_triggered`; `fileName` is what the save dialog returns. -/
def Notepad.on_actionSave_triggered (fileName : String) (s : Notepad tk) : Notepad tk :=
  -- QString fileName = QFileDialog::getSaveFileName(this, "Save");
  let s := { s with dialogs := s.dialogs ++ [Dialog.getSaveFileName "Save"] }
  -- if (!file.open(QFile::WriteOnly | QFile::Text)) { warning; return; }
  if !s.fs.writable fileName then
    { s with warnings := s.warnings ++
        [{ title := "Warning", text := "Cannot save file: " ++ s.fs.errorString fileName }] }
  else
    -- currentFile = fileName;
    let s := { s with currentFile := fileName }
    -- setWindowTitle(fileName);
    let s := { s with windowTitle := fileName }
    -- QString text = ui->textEdit->toPlainText();
    let text := tk.toPlainText s.textEdit
    -- out << text; file.close();
    { s with fs := s.fs.write fileName text }

/-- The slot `Notepad::on_actionPrint_triggered`; `result` is what `pDialog.exec()` returns. -/
def Notepad.on_actionPrint_triggered (result : DialogCode) (s : Notepad tk) : Notepad tk :=
  -- printer.setPrinterName("Printer Name"); QPrintDialog pDialog(&printer, this);
  let s := { s with dialogs := s.dialogs ++ [Dialog.printDialog "Printer Name"] }
  -- if (pDialog.exec() == QDialog::Rejected) { warning; return; }
  if result = DialogCode.Rejected then
    { s with warnings := s.warnings ++ [{ title := "Warning", text := "Cannot Access Printer" }] }
  else
    -- ui->textEdit->print(&printer);
    { s with printed := s.printed ++ [s.textEdit] }

/-- The slot `Notepad::on_actionCopy_triggered`. -/
def Notepad.on_actionCopy_triggered (s : Notepad tk) : Notepad tk :=
  { s with textEdit := tk.copy s.textEdit }

/-- The slot `Notepad::on_actionCut_triggered`. -/
def Notepad.on_actionCut_triggered (s : Notepad tk) : Notepad tk :=
  { s with textEdit := tk.cut s.textEdit }

/-- The slot `Notepad::on_actionPaste_triggered`. -/
def Notepad.on_actionPaste_triggered (s : Notepad tk) : Notepad tk :=
  { s with textEdit := tk.paste s.textEdit }

/-- The slot `Notepad::on_actionUndo_triggered`. -/
def Notepad.on_actionUndo_triggered (s : Notepad tk) : Notepad tk :=
  { s with textEdit := tk.undo s.textEdit }

/-- The slot `Notepad::on_actionRedo_triggered`. -/
def Notepad.on_actionRedo_triggered (s : Notepad tk) : Notepad tk :=
  { s with textEdit := tk.redo s.textEdit }

/-! ## Concrete instances, to run the handlers on -/

/-- A plain-text widget: the document, the clipboard and the undo and redo stacks.  Copy and cut
take the whole document. -/
structure Buffer where
  text : String
  clipboard : String
  undoStack : List String
  redoStack : List String
  deriving DecidableEq

/-- A small instance of the toolkit on which the handlers can be evaluated. -/
def sampleToolkit : Toolkit where
  Widget := Buffer
  setText t w := { text := t, clipboard := w.clipboard, undoStack := [], redoStack := [] }
  toPlainText w := w.text
  copy w := { w with clipboard := w.text }
  cut w := { text := "", clipboard := w.text, undoStack := w.text :: w.undoStack, redoStack := [] }
  paste w := { w with text := w.text ++ w.clipboard, undoStack := w.text :: w.undoStack,
                      redoStack := [] }
  undo w :=
    match w.undoStack with
    | [] => w
    | t :: rest => { w with text := t, undoStack := rest, redoStack := w.text :: w.redoStack }
  redo w :=
    match w.redoStack with
    | [] => w
    | t :: rest => { w with text := t, redoStack := rest, undoStack := w.text :: w.undoStack }

/-- Files for the examples: "notes.txt" holds "hello" and opens in both modes, "locked.txt" holds
"secret" and "page.html" holds "<b>hi</b>", both opening for reading only; there is no file at
"new.txt" and "other.txt", which can be created, and none at any other path. -/
def sampleFiles : FileSystem where
  present p := p == "notes.txt" || p == "locked.txt" || p == "page.html"
  mayRead _ := true
  writable p := p == "notes.txt" || p == "new.txt" || p == "other.txt"
  content p :=
    if p == "notes.txt" then "hello"
    else if p == "locked.txt" then "secret"
    else if p == "page.html" then "<b>hi</b>"
    else ""
  errorString _ := "No such file or directory"

/-- The text without its tags: every run of characters from '<' to the next '>' is left out.  The
flag tells whether the scan is inside a tag. -/
def stripTags : Bool → List Char → List Char
  | _, [] => []
  | true, c :: cs => if c = '>' then stripTags false cs else stripTags true cs
  | false, c :: cs => if c = '<' then stripTags true cs else c :: stripTags false cs

/-- Whether the text starts with a tag. -/
def looksLikeMarkup (t : String) : Bool :=
  match t.toList with
  | '<' :: _ => true
  | _ => false

/-- The document of a widget that tells markup from plain text. -/
structure Page where
  /-- The plain text of the document. -/
  plain : String
  /-- Whether the document is formatted text. -/
  rich : Bool
  deriving DecidableEq

/-- An instance of the toolkit whose `setText` guesses the format of the text it is given, as
`QTextEdit::setText` is documented to do ("the text can be plain text or HTML and the text edit
will try to guess the right format"): a text that starts with a tag becomes a formatted document,
whose plain text is the text without the tags.  The clipboard and the undo stack are left out. -/
def guessingToolkit : Toolkit where
  Widget := Page
  setText t _ :=
    if looksLikeMarkup t then { plain := String.mk (stripTags false t.toList), rich := true }
    else { plain := t, rich := false }
  toPlainText w := w.plain
  copy w := w
  cut w := w
  paste w := w
  undo w := w
  redo w := w

/-- A window right after start-up over the guessing widget, with an empty document. -/
def guessingWindow : Notepad guessingToolkit :=
  Notepad.init guessingToolkit "Notepad" { plain := "", rich := false } sampleFiles

/-- A window over the guessing widget into which the user has typed the seven characters
"<b>hi</b>". -/
def typedTagsWindow : Notepad guessingToolkit :=
  Notepad.init guessingToolkit "Notepad" { plain := "<b>hi</b>", rich := false } sampleFiles

/-- A window that shows "draft" under the title "notes.txt", the stored path being "notes.txt". -/
def sampleWindow : Notepad sampleToolkit :=
  { currentFile := "notes.txt", windowTitle := "notes.txt",
    textEdit := { text := "draft", clipboard := "", undoStack := [], redoStack := [] },
    fs := sampleFiles, dialogs := [], warnings := [], printed := [] }

/-! ## Sequences of actions -/

/-- One menu action, with the answer of the dialog it runs. -/
inductive Action where
  | New
  | Open (fileName : String)
  | Save (fileName : String)
  | SaveAs (fileName : String)
  | Print (result : DialogCode)
  | Copy
  | Cut
  | Paste
  | Undo
  | Redo
  deriving DecidableEq

/-- The handler that the action triggers. -/
def Notepad.step (s : Notepad tk) : Action → Notepad tk
  | Action.New => s.on_actionNew_triggered
  | Action.Open fileName => s.on_actionOpen_triggered fileName
  | Action.Save fileName => s.on_actionSave_triggered fileName
  | Action.SaveAs fileName => s.on_actionSave_as_triggered fileName
  | Action.Print result => s.on_actionPrint_triggered result
  | Action.Copy => s.on_actionCopy_triggered
  | Action.Cut => s.on_actionCut_triggered
  | Action.Paste => s.on_actionPaste_triggered
  | Action.Undo => s.on_actionUndo_triggered
  | Action.Redo => s.on_actionRedo_triggered

/-- The state after a sequence of actions, first action first. -/
def Notepad.run : List Action → Notepad tk → Notepad tk
  | [], s => s
  | a :: rest, s => Notepad.run rest (s.step a)

/-- The path that the action opens or saves in state `s`, when its `open` call succeeds there. -/
def Notepad.usedPath (s : Notepad tk) : Action → Option String
  | Action.Open fileName => if s.fs.readable fileName then some fileName else none
  | Action.Save fileName => if s.fs.writable fileName then some fileName else none
  | Action.SaveAs fileName => if s.fs.writable fileName then some fileName else none
  | _ => none

/-- Whether the action, run in state `s`, is a New or an Open whose `open` call fails. -/
def Notepad.newOrFailedOpen (s : Notepad tk) : Action → Bool
  | Action.New => true
  | Action.Open fileName => !s.fs.readable fileName
  | _ => false

/-- What a run has done so far, as far as the title is concerned.  It is an observer of the run,
not part of the program. -/
structure History where
  /-- The path of the most recent successful open or save, if there was one. -/
  lastUsed : Option String
  /-- No New and no failed Open has run since that success. -/
  undisturbed : Bool
  deriving DecidableEq

/-- No action has run yet. -/
def History.start : History :=
  { lastUsed := none, undisturbed := false }

/-- The history after the action `a` has run in state `s`. -/
def History.record (h : History) (s : Notepad tk) (a : Action) : History :=
  match s.usedPath a with
  | some p => { lastUsed := some p, undisturbed := true }
  | none => { h with undisturbed := h.undisturbed && !s.newOrFailedOpen a }

/-- The history of a sequence of actions run from state `s`. -/
def Notepad.history : List Action → Notepad tk → History → History
  | [], _, h => h
  | a :: rest, s, h => Notepad.history rest (s.step a) (h.record s a)

/-- The fields other than the widget agree in `s` and `r`. -/
def Notepad.SameOutsideWidget (s r : Notepad tk) : Prop :=
  r.currentFile = s.currentFile ∧ r.windowTitle = s.windowTitle ∧ r.fs = s.fs ∧
    r.dialogs = s.dialogs ∧ r.warnings = s.warnings ∧ r.printed = s.printed

/-- The window right after start-up, over the sample files, with an empty document. -/
def freshWindow : Notepad sampleToolkit :=
  Notepad.init sampleToolkit "Notepad"
    { text := "", clipboard := "", undoStack := [], redoStack := [] } sampleFiles

/-! ## Theorems -/

theorem open_of_readable (s : Notepad tk) (p : String) (h : s.fs.readable p = true) :
    s.on_actionOpen_triggered p =
      { s with dialogs := s.dialogs ++ [Dialog.getOpenFileName "Open the file"],
               currentFile := p, windowTitle := p,
               textEdit := tk.setText (s.fs.content p) s.textEdit } := by
  simp [Notepad.on_actionOpen_triggered, h]

theorem open_of_unreadable (s : Notepad tk) (p : String) (h : s.fs.readable p = false) :
    s.on_actionOpen_triggered p =
      { s with dialogs := s.dialogs ++ [Dialog.getOpenFileName "Open the file"],
               currentFile := p,
               warnings := s.warnings ++
                 [{ title := "Warning", text := "Cannot open file: " ++ s.fs.errorString p }] } := by
  simp [Notepad.on_actionOpen_triggered, h]

theorem save_as_of_writable (s : Notepad tk) (p : String) (h : s.fs.writable p = true) :
    s.on_actionSave_as_triggered p =
      { s with dialogs := s.dialogs ++ [Dialog.getSaveFileName "Save as"],
               currentFile := p, windowTitle := p,
               fs := s.fs.write p (tk.toPlainText s.textEdit) } := by
  simp [Notepad.on_actionSave_as_triggered, h]

theorem save_as_of_unwritable (s : Notepad tk) (p : String) (h : s.fs.writable p = false) :
    s.on_actionSave_as_triggered p =
      { s with dialogs := s.dialogs ++ [Dialog.getSaveFileName "Save as"],
               warnings := s.warnings ++
                 [{ title := "Warning", text := "Cannot save file: " ++ s.fs.errorString p }] } := by
  simp [Notepad.on_actionSave_as_triggered, h]

theorem save_of_writable (s : Notepad tk) (p : String) (h : s.fs.writable p = true) :
    s.on_actionSave_triggered p =
      { s with dialogs := s.dialogs ++ [Dialog.getSaveFileName "Save"],
               currentFile := p, windowTitle := p,
               fs := s.fs.write p (tk.toPlainText s.textEdit) } := by
  simp [Notepad.on_actionSave_triggered, h]

theorem save_of_unwritable (s : Notepad tk) (p : String) (h : s.fs.writable p = false) :
    s.on_actionSave_triggered p =
      { s with dialogs := s.dialogs ++ [Dialog.getSaveFileName "Save"],
               warnings := s.warnings ++
                 [{ title := "Warning", text := "Cannot save file: " ++ s.fs.errorString p }] } := by
  simp [Notepad.on_actionSave_triggered, h]

theorem write_content_self (fs : FileSystem) (p t : String) : (fs.write p t).content p = t := by
  simp [FileSystem.write]

theorem write_readable_self (fs : FileSystem) (p t : String) :
    (fs.write p t).readable p = fs.mayRead p := by
  simp [FileSystem.write, FileSystem.readable]

theorem write_readable_other (fs : FileSystem) (p q t : String) (h : q ≠ p) :
    (fs.write p t).readable q = fs.readable q := by
  simp [FileSystem.write, FileSystem.readable, h]

/-! ### The title along a run -/

theorem step_keeps_title (s : Notepad tk) (h : History) (a : Action)
    (inv : ∀ p, h.lastUsed = some p →
      s.windowTitle = p ∧ (h.undisturbed = true → s.currentFile = p)) :
    ∀ p, (h.record s a).lastUsed = some p →
      (s.step a).windowTitle = p ∧ ((h.record s a).undisturbed = true → (s.step a).currentFile = p) := by
  intro p hp
  cases a with
  | Open f =>
    cases hf : s.fs.readable f
    · simp only [History.record, Notepad.usedPath, Notepad.newOrFailedOpen, hf] at hp ⊢
      simp only [Notepad.step, open_of_unreadable s f hf]
      exact ⟨(inv p hp).1, by simp⟩
    · simp only [History.record, Notepad.usedPath, hf, if_true, Option.some.injEq] at hp ⊢
      simp only [Notepad.step, open_of_readable s f hf]
      exact ⟨hp, fun _ => hp⟩
  | Save f =>
    cases hf : s.fs.writable f
    · simp only [History.record, Notepad.usedPath, Notepad.newOrFailedOpen, hf] at hp ⊢
      simp only [Notepad.step, save_of_unwritable s f hf]
      refine ⟨(inv p hp).1, fun hu => (inv p hp).2 ?_⟩
      simpa using hu
    · simp only [History.record, Notepad.usedPath, hf, if_true, Option.some.injEq] at hp ⊢
      simp only [Notepad.step, save_of_writable s f hf]
      exact ⟨hp, fun _ => hp⟩
  | SaveAs f =>
    cases hf : s.fs.writable f
    · simp only [History.record, Notepad.usedPath, Notepad.newOrFailedOpen, hf] at hp ⊢
      simp only [Notepad.step, save_as_of_unwritable s f hf]
      refine ⟨(inv p hp).1, fun hu => (inv p hp).2 ?_⟩
      simpa using hu
    · simp only [History.record, Notepad.usedPath, hf, if_true, Option.some.injEq] at hp ⊢
      simp only [Notepad.step, save_as_of_writable s f hf]
      exact ⟨hp, fun _ => hp⟩
  | New =>
    simp only [History.record, Notepad.usedPath, Notepad.newOrFailedOpen] at hp ⊢
    exact ⟨(inv p hp).1, by simp⟩
  | Print r =>
    simp only [History.record, Notepad.usedPath, Notepad.newOrFailedOpen] at hp ⊢
    have hu : ∀ b : Bool, (b && !false) = true → b = true := by simp
    cases r
    · exact ⟨(inv p hp).1, fun h1 => (inv p hp).2 (hu _ h1)⟩
    · exact ⟨(inv p hp).1, fun h1 => (inv p hp).2 (hu _ h1)⟩
  | Copy =>
    simp only [History.record, Notepad.usedPath, Notepad.newOrFailedOpen] at hp ⊢
    have hu : ∀ b : Bool, (b && !false) = true → b = true := by simp
    exact ⟨(inv p hp).1, fun h1 => (inv p hp).2 (hu _ h1)⟩
  | Cut =>
    simp only [History.record, Notepad.usedPath, Notepad.newOrFailedOpen] at hp ⊢
    have hu : ∀ b : Bool, (b && !false) = true → b = true := by simp
    exact ⟨(inv p hp).1, fun h1 => (inv p hp).2 (hu _ h1)⟩
  | Paste =>
    simp only [History.record, Notepad.usedPath, Notepad.newOrFailedOpen] at hp ⊢
    have hu : ∀ b : Bool, (b && !false) = true → b = true := by simp
    exact ⟨(inv p hp).1, fun h1 => (inv p hp).2 (hu _ h1)⟩
  | Undo =>
    simp only [History.record, Notepad.usedPath, Notepad.newOrFailedOpen] at hp ⊢
    have hu : ∀ b : Bool, (b && !false) = true → b = true := by simp
    exact ⟨(inv p hp).1, fun h1 => (inv p hp).2 (hu _ h1)⟩
  | Redo =>
    simp only [History.record, Notepad.usedPath, Notepad.newOrFailedOpen] at hp ⊢
    have hu : ∀ b : Bool, (b && !false) = true → b = true := by simp
    exact ⟨(inv p hp).1, fun h1 => (inv p hp).2 (hu _ h1)⟩

theorem run_keeps_title (acts : List Action) :
    ∀ (s : Notepad tk) (h : History),
      (∀ p, h.lastUsed = some p →
        s.windowTitle = p ∧ (h.undisturbed = true → s.currentFile = p)) →
      ∀ p, (Notepad.history acts s h).lastUsed = some p →
        (Notepad.run acts s).windowTitle = p ∧
          ((Notepad.history acts s h).undisturbed = true → (Notepad.run acts s).currentFile = p) := by
  induction acts with
  | nil => intro s h inv p hp; exact inv p hp
  | cons a rest ih =>
    intro s h inv p hp
    exact ih (s.step a) (h.record s a) (step_keeps_title s h a inv) p hp

/-! ### The claims -/

/-- C1 as stated fails: at a widget whose `setText` guesses the format, opening the readable file
"page.html", which holds "<b>hi</b>", leaves the text area holding "hi", not the contents of the
file. -/
theorem open_markup_file_shows_other_text :
    guessingWindow.fs.readable "page.html" = true ∧
    guessingWindow.fs.content "page.html" = "<b>hi</b>" ∧
    guessingToolkit.toPlainText (guessingWindow.on_actionOpen_triggered "page.html").textEdit =
      "hi" ∧
    guessingToolkit.toPlainText (guessingWindow.on_actionOpen_triggered "page.html").textEdit ≠
      guessingWindow.fs.content "page.html" :=
  ⟨by decide, by decide, by decide, by decide⟩

/-- C1, amended: when the chosen path can be opened for reading, `on_actionOpen_triggered` leaves
the text widget in the state that the widget's own `setText` gives for exactly the contents of the
file at that path, sets the window title to that path, and shows no warning; the text area then
holds exactly the contents of the file if and only if the widget's `setText` keeps them as its
plain text. -/
theorem open_readable_sets_widget (s : Notepad tk) (p : String) (h : s.fs.readable p = true) :
    (s.on_actionOpen_triggered p).textEdit = tk.setText (s.fs.content p) s.textEdit ∧
    (s.on_actionOpen_triggered p).windowTitle = p ∧
    (s.on_actionOpen_triggered p).warnings = s.warnings ∧
    (tk.toPlainText (s.on_actionOpen_triggered p).textEdit = s.fs.content p ↔
      tk.toPlainText (tk.setText (s.fs.content p) s.textEdit) = s.fs.content p) := by
  rw [open_of_readable s p h]
  exact ⟨rfl, rfl, rfl, Iff.rfl⟩

theorem open_readable_sets_widget_witness :
    guessingWindow.fs.readable "notes.txt" = true ∧
    guessingWindow.fs.content "notes.txt" = "hello" ∧
    guessingToolkit.toPlainText (guessingWindow.on_actionOpen_triggered "notes.txt").textEdit =
      guessingWindow.fs.content "notes.txt" ∧
    (guessingWindow.on_actionOpen_triggered "notes.txt").windowTitle = "notes.txt" ∧
    (guessingWindow.on_actionOpen_triggered "notes.txt").warnings = guessingWindow.warnings :=
  ⟨by decide, by decide,
   (open_readable_sets_widget guessingWindow "notes.txt" (by decide)).2.2.2.mpr (by decide),
   (open_readable_sets_widget guessingWindow "notes.txt" (by decide)).2.1,
   (open_readable_sets_widget guessingWindow "notes.txt" (by decide)).2.2.1⟩

/-- C2 (the code departs from it): choosing "missing.txt", which cannot be opened, in a window
whose stored path is "notes.txt" shows the warning and keeps the text area and the title, but the
stored current-file path becomes "missing.txt". -/
theorem open_unreadable_overwrites_path :
    sampleWindow.fs.readable "missing.txt" = false ∧
    sampleWindow.currentFile = "notes.txt" ∧
    (sampleWindow.on_actionOpen_triggered "missing.txt").currentFile = "missing.txt" ∧
    (sampleWindow.on_actionOpen_triggered "missing.txt").windowTitle = "notes.txt" ∧
    (sampleWindow.on_actionOpen_triggered "missing.txt").textEdit = sampleWindow.textEdit ∧
    (sampleWindow.on_actionOpen_triggered "missing.txt").warnings =
      [{ title := "Warning", text := "Cannot open file: No such file or directory" }] :=
  ⟨by decide, by decide, by decide, by decide, rfl, by decide⟩

/-- C3: when the chosen path can be opened for writing, `on_actionSave_triggered` and
`on_actionSave_as_triggered` leave the file at that path holding exactly the text area's plain-text
content, whatever it held before, and leave the text area unchanged. -/
theorem save_writable_writes_text (s : Notepad tk) (p : String) (h : s.fs.writable p = true) :
    ((s.on_actionSave_triggered p).fs.content p = tk.toPlainText s.textEdit ∧
      (s.on_actionSave_triggered p).textEdit = s.textEdit) ∧
    ((s.on_actionSave_as_triggered p).fs.content p = tk.toPlainText s.textEdit ∧
      (s.on_actionSave_as_triggered p).textEdit = s.textEdit) := by
  rw [save_of_writable s p h, save_as_of_writable s p h]
  exact ⟨⟨write_content_self _ _ _, rfl⟩, ⟨write_content_self _ _ _, rfl⟩⟩

theorem save_writable_writes_text_witness :
    sampleWindow.fs.writable "notes.txt" = true ∧
    sampleWindow.fs.content "notes.txt" = "hello" ∧
    (sampleWindow.on_actionSave_triggered "notes.txt").fs.content "notes.txt" = "draft" ∧
    (sampleWindow.on_actionSave_as_triggered "notes.txt").fs.content "notes.txt" = "draft" :=
  ⟨by decide, by decide,
   (save_writable_writes_text sampleWindow "notes.txt" (by decide)).1.1,
   (save_writable_writes_text sampleWindow "notes.txt" (by decide)).2.1⟩

/-- C4: when the chosen path cannot be opened for writing, `on_actionSave_triggered` and
`on_actionSave_as_triggered` show one warning and change nothing else: the text area, the stored
current-file path, the window title and the file system are as before the call. -/
theorem save_unwritable_aborts (s : Notepad tk) (p : String) (h : s.fs.writable p = false) :
    ((s.on_actionSave_triggered p).warnings = s.warnings ++
        [{ title := "Warning", text := "Cannot save file: " ++ s.fs.errorString p }] ∧
      (s.on_actionSave_triggered p).textEdit = s.textEdit ∧
      (s.on_actionSave_triggered p).currentFile = s.currentFile ∧
      (s.on_actionSave_triggered p).windowTitle = s.windowTitle ∧
      (s.on_actionSave_triggered p).fs = s.fs) ∧
    ((s.on_actionSave_as_triggered p).warnings = s.warnings ++
        [{ title := "Warning", text := "Cannot save file: " ++ s.fs.errorString p }] ∧
      (s.on_actionSave_as_triggered p).textEdit = s.textEdit ∧
      (s.on_actionSave_as_triggered p).currentFile = s.currentFile ∧
      (s.on_actionSave_as_triggered p).windowTitle = s.windowTitle ∧
      (s.on_actionSave_as_triggered p).fs = s.fs) := by
  rw [save_of_unwritable s p h, save_as_of_unwritable s p h]
  exact ⟨⟨rfl, rfl, rfl, rfl, rfl⟩, ⟨rfl, rfl, rfl, rfl, rfl⟩⟩

theorem save_unwritable_aborts_witness :
    sampleWindow.fs.writable "locked.txt" = false ∧
    (sampleWindow.on_actionSave_triggered "locked.txt").currentFile = "notes.txt" ∧
    (sampleWindow.on_actionSave_as_triggered "locked.txt").windowTitle = "notes.txt" ∧
    (sampleWindow.on_actionSave_triggered "locked.txt").fs = sampleFiles :=
  ⟨by decide,
   (save_unwritable_aborts sampleWindow "locked.txt" (by decide)).1.2.2.1,
   (save_unwritable_aborts sampleWindow "locked.txt" (by decide)).2.2.2.2.1,
   (save_unwritable_aborts sampleWindow "locked.txt" (by decide)).1.2.2.2.2⟩

/-- C7 as stated fails: rejecting the print dialog in a window that has shown no warning yet
leaves one warning, "Cannot Access Printer", on the screen. -/
theorem print_rejected_shows_warning :
    sampleWindow.warnings = [] ∧
    (sampleWindow.on_actionPrint_triggered DialogCode.Rejected).warnings =
      [{ title := "Warning", text := "Cannot Access Printer" }] :=
  ⟨by decide, by decide⟩

/-- C7, amended: when the user rejects the print dialog, `on_actionPrint_triggered` sends nothing
to the printer and leaves the text area, the stored path, the window title and the files
unchanged, and it shows exactly one warning box, "Cannot Access Printer". -/
theorem print_rejected_warns_and_prints_nothing (s : Notepad tk) :
    (s.on_actionPrint_triggered DialogCode.Rejected).printed = s.printed ∧
    (s.on_actionPrint_triggered DialogCode.Rejected).warnings =
      s.warnings ++ [{ title := "Warning", text := "Cannot Access Printer" }] ∧
    (s.on_actionPrint_triggered DialogCode.Rejected).dialogs =
      s.dialogs ++ [Dialog.printDialog "Printer Name"] ∧
    (s.on_actionPrint_triggered DialogCode.Rejected).textEdit = s.textEdit ∧
    (s.on_actionPrint_triggered DialogCode.Rejected).currentFile = s.currentFile ∧
    (s.on_actionPrint_triggered DialogCode.Rejected).windowTitle = s.windowTitle ∧
    (s.on_actionPrint_triggered DialogCode.Rejected).fs = s.fs :=
  ⟨rfl, rfl, rfl, rfl, rfl, rfl, rfl⟩

/-- C8: each of `on_actionCopy/Cut/Paste/Undo/Redo_triggered` turns the widget state into the
result of one call of the widget's own copy, cut, paste, undo or redo, and leaves the stored
current-file path, the window title, the file system (and the dialogs, warnings and print jobs)
unchanged. -/
theorem edit_actions_delegate (s : Notepad tk) :
    (s.on_actionCopy_triggered.textEdit = tk.copy s.textEdit ∧
      s.SameOutsideWidget s.on_actionCopy_triggered) ∧
    (s.on_actionCut_triggered.textEdit = tk.cut s.textEdit ∧
      s.SameOutsideWidget s.on_actionCut_triggered) ∧
    (s.on_actionPaste_triggered.textEdit = tk.paste s.textEdit ∧
      s.SameOutsideWidget s.on_actionPaste_triggered) ∧
    (s.on_actionUndo_triggered.textEdit = tk.undo s.textEdit ∧
      s.SameOutsideWidget s.on_actionUndo_triggered) ∧
    (s.on_actionRedo_triggered.textEdit = tk.redo s.textEdit ∧
      s.SameOutsideWidget s.on_actionRedo_triggered) :=
  ⟨⟨rfl, rfl, rfl, rfl, rfl, rfl, rfl⟩, ⟨rfl, rfl, rfl, rfl, rfl, rfl, rfl⟩,
   ⟨rfl, rfl, rfl, rfl, rfl, rfl, rfl⟩, ⟨rfl, rfl, rfl, rfl, rfl, rfl, rfl⟩,
   ⟨rfl, rfl, rfl, rfl, rfl, rfl, rfl⟩⟩

/-- C9: `on_actionSave_triggered` and `on_actionSave_as_triggered` are the same state transformer
up to the caption of the dialog they run: for every state and every dialog answer they produce the
same text area, stored path, window title, file system, warnings and print jobs.  Save always runs
the save dialog, and what it writes, shows and titles does not depend on the stored current-file
path. -/
theorem save_equals_save_as (s : Notepad tk) (p : String) :
    s.on_actionSave_triggered p =
      { s.on_actionSave_as_triggered p with
        dialogs := s.dialogs ++ [Dialog.getSaveFileName "Save"] } ∧
    (s.on_actionSave_as_triggered p).dialogs =
      s.dialogs ++ [Dialog.getSaveFileName "Save as"] ∧
    (s.on_actionSave_triggered p).textEdit = (s.on_actionSave_as_triggered p).textEdit ∧
    (s.on_actionSave_triggered p).currentFile = (s.on_actionSave_as_triggered p).currentFile ∧
    (s.on_actionSave_triggered p).windowTitle = (s.on_actionSave_as_triggered p).windowTitle ∧
    (s.on_actionSave_triggered p).fs = (s.on_actionSave_as_triggered p).fs ∧
    (s.on_actionSave_triggered p).warnings = (s.on_actionSave_as_triggered p).warnings ∧
    (s.on_actionSave_triggered p).printed = (s.on_actionSave_as_triggered p).printed ∧
    (∀ c : String,
      ({ s with currentFile := c }.on_actionSave_triggered p).fs =
        (s.on_actionSave_triggered p).fs ∧
      ({ s with currentFile := c }.on_actionSave_triggered p).windowTitle =
        (s.on_actionSave_triggered p).windowTitle ∧
      ({ s with currentFile := c }.on_actionSave_triggered p).textEdit =
        (s.on_actionSave_triggered p).textEdit ∧
      ({ s with currentFile := c }.on_actionSave_triggered p).warnings =
        (s.on_actionSave_triggered p).warnings ∧
      ({ s with currentFile := c }.on_actionSave_triggered p).dialogs =
        (s.on_actionSave_triggered p).dialogs) := by
  cases h : s.fs.writable p
  · rw [save_of_unwritable s p h, save_as_of_unwritable s p h]
    refine ⟨rfl, rfl, rfl, rfl, rfl, rfl, rfl, rfl, fun c => ?_⟩
    rw [save_of_unwritable { s with currentFile := c } p h]
    exact ⟨rfl, rfl, rfl, rfl, rfl⟩
  · rw [save_of_writable s p h, save_as_of_writable s p h]
    refine ⟨rfl, rfl, rfl, rfl, rfl, rfl, rfl, rfl, fun c => ?_⟩
    rw [save_of_writable { s with currentFile := c } p h]
    exact ⟨rfl, rfl, rfl, rfl, rfl⟩

/-- C10 as stated fails: at a widget whose `setText` guesses the format, a text area holding the
typed text "<b>hi</b>" is saved to the new file "new.txt", which is then readable, and opening
"new.txt" leaves the text area holding "hi". -/
theorem round_trip_loses_typed_tags :
    typedTagsWindow.fs.writable "new.txt" = true ∧
    (typedTagsWindow.on_actionSave_as_triggered "new.txt").fs.readable "new.txt" = true ∧
    guessingToolkit.toPlainText typedTagsWindow.textEdit = "<b>hi</b>" ∧
    (typedTagsWindow.on_actionSave_as_triggered "new.txt").fs.content "new.txt" = "<b>hi</b>" ∧
    guessingToolkit.toPlainText ((typedTagsWindow.on_actionSave_as_triggered
      "new.txt").on_actionOpen_triggered "new.txt").textEdit = "hi" ∧
    guessingToolkit.toPlainText ((typedTagsWindow.on_actionSave_as_triggered
      "new.txt").on_actionOpen_triggered "new.txt").textEdit ≠
        guessingToolkit.toPlainText typedTagsWindow.textEdit :=
  ⟨by decide, by decide, by decide, by decide, by decide, by decide⟩

/-- C10, amended: if the text area holds the plain text `t` and the chosen path `p` can be opened
for writing, and for reading once it is saved, then `on_actionSave_as_triggered` with `p` followed
by `on_actionOpen_triggered` with `p` leaves the file at `p` holding `t`, the text widget in the
state that the widget's own `setText` gives for `t`, and the stored current-file path and the
window title both equal to `p`; the text area then holds `t` again if and only if the widget's
`setText` keeps `t` as its plain text. -/
theorem save_as_then_open_resets_widget (s : Notepad tk) (p : String)
    (hw : s.fs.writable p = true)
    (hr : (s.on_actionSave_as_triggered p).fs.readable p = true) :
    (s.on_actionSave_as_triggered p).fs.content p = tk.toPlainText s.textEdit ∧
    ((s.on_actionSave_as_triggered p).on_actionOpen_triggered p).textEdit =
      tk.setText (tk.toPlainText s.textEdit) s.textEdit ∧
    ((s.on_actionSave_as_triggered p).on_actionOpen_triggered p).currentFile = p ∧
    ((s.on_actionSave_as_triggered p).on_actionOpen_triggered p).windowTitle = p ∧
    (tk.toPlainText ((s.on_actionSave_as_triggered p).on_actionOpen_triggered p).textEdit =
        tk.toPlainText s.textEdit ↔
      tk.toPlainText (tk.setText (tk.toPlainText s.textEdit) s.textEdit) =
        tk.toPlainText s.textEdit) := by
  rw [open_of_readable _ p hr]
  rw [save_as_of_writable s p hw]
  have hc : (s.fs.write p (tk.toPlainText s.textEdit)).content p = tk.toPlainText s.textEdit :=
    write_content_self _ _ _
  refine ⟨hc, ?_, rfl, rfl, ?_⟩
  · show tk.setText ((s.fs.write p (tk.toPlainText s.textEdit)).content p) s.textEdit = _
    rw [hc]
  · show tk.toPlainText
      (tk.setText ((s.fs.write p (tk.toPlainText s.textEdit)).content p) s.textEdit) = _ ↔ _
    rw [hc]

theorem save_as_then_open_resets_widget_witness :
    sampleWindow.fs.readable "new.txt" = false ∧
    sampleWindow.fs.writable "new.txt" = true ∧
    (sampleWindow.on_actionSave_as_triggered "new.txt").fs.readable "new.txt" = true ∧
    sampleToolkit.toPlainText sampleWindow.textEdit = "draft" ∧
    sampleToolkit.toPlainText ((sampleWindow.on_actionSave_as_triggered
      "new.txt").on_actionOpen_triggered "new.txt").textEdit =
        sampleToolkit.toPlainText sampleWindow.textEdit ∧
    ((sampleWindow.on_actionSave_as_triggered
      "new.txt").on_actionOpen_triggered "new.txt").windowTitle = "new.txt" :=
  ⟨by decide, by decide, by decide, by decide,
   (save_as_then_open_resets_widget sampleWindow "new.txt" (by decide)
     (by decide)).2.2.2.2.mpr (by decide),
   (save_as_then_open_resets_widget sampleWindow "new.txt" (by decide) (by decide)).2.2.2.1⟩

/-- C6 as stated fails: from the window right after start-up, a successful Open of "notes.txt"
followed by New reaches a state whose title is "notes.txt" while the stored path is empty. -/
theorem title_differs_from_path_after_new :
    (Notepad.history [Action.Open "notes.txt", Action.New] freshWindow History.start).lastUsed =
      some "notes.txt" ∧
    (Notepad.run [Action.Open "notes.txt", Action.New] freshWindow).windowTitle = "notes.txt" ∧
    (Notepad.run [Action.Open "notes.txt", Action.New] freshWindow).currentFile = "" ∧
    (Notepad.run [Action.Open "notes.txt", Action.New] freshWindow).windowTitle ≠
      (Notepad.run [Action.Open "notes.txt", Action.New] freshWindow).currentFile :=
  ⟨by decide, by decide, by decide, by decide⟩

/-- C6, amended: in every state reached by a sequence of the handlers in which some open or save
has succeeded, the window title is the path of the most recent successful open or save; and the
title equals the stored current-file path as long as no New and no failed Open has run since that
success. -/
theorem title_is_last_used_path (acts : List Action) (s0 : Notepad tk) (p : String)
    (h : (Notepad.history acts s0 History.start).lastUsed = some p) :
    (Notepad.run acts s0).windowTitle = p ∧
    ((Notepad.history acts s0 History.start).undisturbed = true →
      (Notepad.run acts s0).windowTitle = (Notepad.run acts s0).currentFile) := by
  have key := run_keeps_title acts s0 History.start (fun q hq => by cases hq) p h
  exact ⟨key.1, fun hu => key.1.trans (key.2 hu).symm⟩

theorem title_is_last_used_path_witness :
    freshWindow.fs.readable "new.txt" = false ∧
    (Notepad.history [Action.New, Action.SaveAs "new.txt", Action.SaveAs "other.txt",
      Action.Open "new.txt", Action.Cut, Action.SaveAs "locked.txt",
      Action.Print DialogCode.Rejected] freshWindow History.start).lastUsed = some "new.txt" ∧
    (Notepad.history [Action.New, Action.SaveAs "new.txt", Action.SaveAs "other.txt",
      Action.Open "new.txt", Action.Cut, Action.SaveAs "locked.txt",
      Action.Print DialogCode.Rejected] freshWindow History.start).undisturbed = true ∧
    (Notepad.run [Action.New, Action.SaveAs "new.txt", Action.SaveAs "other.txt",
      Action.Open "new.txt", Action.Cut, Action.SaveAs "locked.txt",
      Action.Print DialogCode.Rejected] freshWindow).warnings =
      [{ title := "Warning", text := "Cannot save file: No such file or directory" },
       { title := "Warning", text := "Cannot Access Printer" }] ∧
    (Notepad.run [Action.New, Action.SaveAs "new.txt", Action.SaveAs "other.txt",
      Action.Open "new.txt", Action.Cut, Action.SaveAs "locked.txt",
      Action.Print DialogCode.Rejected] freshWindow).windowTitle = "new.txt" ∧
    (Notepad.run [Action.New, Action.SaveAs "new.txt", Action.SaveAs "other.txt",
      Action.Open "new.txt", Action.Cut, Action.SaveAs "locked.txt",
      Action.Print DialogCode.Rejected] freshWindow).windowTitle =
      (Notepad.run [Action.New, Action.SaveAs "new.txt", Action.SaveAs "other.txt",
      Action.Open "new.txt", Action.Cut, Action.SaveAs "locked.txt",
      Action.Print DialogCode.Rejected] freshWindow).currentFile :=
  ⟨by decide, by decide, by decide, by decide,
   (title_is_last_used_path _ freshWindow "new.txt" (by decide)).1,
   (title_is_last_used_path _ freshWindow "new.txt" (by decide)).2 (by decide)⟩

end NotepadApp
